import Mathlib

/-!
Verification of the mindmap memory-graph store
(src/mindmap-backend/database.py, class MindMapDB) against its
natural-language specification.

Shallow embedding conventions:

* The three SQLite tables (nodes, edges, access_logs) are modeled as Lean
  lists kept in rowid (= insertion) order, which is the order an SQLite
  scan of an append-only table yields in this program.
* Timestamps (datetime.now().isoformat()) are modeled as a Nat argument
  supplied to each operation.
* Embedding vectors (numpy float32 arrays produced by the external
  sentence-transformer provider) are modeled as lists of rationals.
* The similarity scalar computed inline by the source,
  float(np.dot(a, b) / (np.linalg.norm(a) * np.linalg.norm(b))),
  involves a floating-point square root that has no exact rational
  counterpart, so the store operations take the similarity function as an
  explicit parameter (sim : Emb -> Emb -> Rat); every structural theorem
  below holds for an arbitrary sim, hence in particular for the cosine the
  source computes.  The numeric zero-norm behaviour of that concrete
  formula is modeled separately over the reals (dotR, normR,
  cosineSimCode, cosineSimSpec below).
* Python exceptions (sqlite3.IntegrityError on a duplicate primary key,
  ValueError for missing nodes) are modeled with Except; a raised
  exception leaves the connection state unchanged, so an error result
  carries no successor state.
-/

namespace Mindmap

/-- Embedding vector: a numpy float32 array modeled as a list of rationals. -/
abbrev Emb := List ℚ

/-- Round an integer fraction n / d (with d positive) to the nearest
integer, ties to even — the rounding mode of Python's builtin round,
expressed with integer arithmetic only. -/
def intRoundHalfEven (n : ℤ) (d : ℕ) : ℤ :=
  let q := Int.ediv n d
  let r := n - q * d
  if 2 * r < (d : ℤ) then q
  else if (d : ℤ) < 2 * r then q + 1
  else if q % 2 = 0 then q else q + 1

/-- Python's round(x, 3), used by the source on every similarity value it
returns, idealized to exact rational arithmetic. -/
def round3 (x : ℚ) : ℚ := mkRat (intRoundHalfEven (x.num * 1000) x.den) 1000

/-- A row of the nodes table (database.py, CREATE TABLE nodes). -/
structure Node where
  id : String
  content : String
  tags : List String
  priority : String
  created_at : Nat
  access_count : Nat
  embedding : Emb
  deriving DecidableEq, Repr

/-- A row of the edges table (database.py, CREATE TABLE edges).  The SQL
UNIQUE(source_id, target_id, relationship) constraint is reflected by the
EdgeKeysUnique invariant below. -/
structure Edge where
  source_id : String
  target_id : String
  relationship : String
  created_at : Nat
  semantic_strength : ℚ
  deriving DecidableEq, Repr

/-- A row of the access_logs table (database.py, CREATE TABLE access_logs). -/
structure LogEntry where
  node_id : String
  accessed_at : Nat
  access_type : String
  deriving DecidableEq, Repr

/-- The persistent state of one MindMapDB store: the three tables, each in
rowid (insertion) order. -/
structure DB where
  nodes : List Node
  edges : List Edge
  logs : List LogEntry
  deriving DecidableEq, Repr

/-- Errors surfaced by the store: the duplicate-primary-key
sqlite3.IntegrityError raised by insert_node, and the
ValueError raised by connect_nodes / navigate_node for missing nodes
(the spec's NotFound). -/
inductive DBError where
  | duplicateId (id : String)
  | notFound (msg : String)
  deriving DecidableEq, Repr

instance {ε α : Type} [DecidableEq ε] [DecidableEq α] : DecidableEq (Except ε α) := fun x y =>
  match x, y with
  | Except.ok a, Except.ok b =>
      if h : a = b then isTrue (by rw [h])
      else isFalse (fun hc => h (Except.ok.inj hc))
  | Except.error a, Except.error b =>
      if h : a = b then isTrue (by rw [h])
      else isFalse (fun hc => h (Except.error.inj hc))
  | Except.ok _, Except.error _ => isFalse (fun hc => Except.noConfusion hc)
  | Except.error _, Except.ok _ => isFalse (fun hc => Except.noConfusion hc)

/-- SELECT * FROM nodes WHERE id = ? (the id column is the primary key). -/
def findNode (db : DB) (nid : String) : Option Node :=
  db.nodes.find? (fun n => n.id == nid)

/-- The primary-key invariant of the nodes table: no two rows share an id. -/
abbrev NodesUnique (db : DB) : Prop :=
  (db.nodes.map (fun n => n.id)).Nodup

/-- The UNIQUE(source_id, target_id, relationship) invariant of the edges
table: no two rows carry the same key triple. -/
abbrev EdgeKeysUnique (db : DB) : Prop :=
  db.edges.Pairwise (fun e1 e2 =>
    ¬(e1.source_id = e2.source_id ∧ e1.target_id = e2.target_id ∧
      e1.relationship = e2.relationship))

/-- One entry of the suggested_connections list built by
_find_similar_nodes. -/
structure Suggestion where
  node_id : String
  content : String
  tags : List String
  similarity : ℚ
  deriving DecidableEq, Repr

/-- The content truncation applied to suggestion entries:
row content cut to 100 characters with an ellipsis appended when longer. -/
def truncateContent (s : String) : String :=
  if s.length > 100 then s.take 100 ++ "..." else s

/-- Python's list.sort(key=..., reverse=True): a stable sort, descending in
the key; elements with equal keys keep their original relative order.  A
stable descending-by-key permutation of a list is unique, so this
insertion sort computes exactly the list the source's stable sort
produces (orderedInsert places an element before the first one of
smaller-or-equal key, i.e. after nothing it ties with that came earlier). -/
def sortBySimDesc {α : Type} (key : α → ℚ) (l : List α) : List α :=
  List.insertionSort (fun x y => key y ≤ key x) l

/-- MindMapDB._find_similar_nodes: scan every node other than exclude_id,
keep those whose similarity to the query embedding is at least the
threshold (the comparison uses the raw similarity; the stored field is
rounded to 3 decimals), sort descending by the stored similarity, and
return the first top_k. -/
def findSimilarNodes (sim : Emb → Emb → ℚ) (db : DB) (queryEmb : Emb)
    (excludeId : String) (topK : Nat) (threshold : ℚ) : List Suggestion :=
  let rows := db.nodes.filter (fun n => n.id != excludeId)
  let sims := rows.filterMap (fun n =>
    if threshold ≤ sim queryEmb n.embedding then
      some { node_id := n.id
             content := truncateContent n.content
             tags := n.tags
             similarity := round3 (sim queryEmb n.embedding) }
    else none)
  (sortBySimDesc (fun x => x.similarity) sims).take topK

/-- The value returned by insert_node. -/
structure InsertResult where
  node_id : String
  suggested_connections : List Suggestion
  deriving DecidableEq, Repr

/-- MindMapDB.insert_node: INSERT the new row (the primary key makes a
duplicate id raise sqlite3.IntegrityError, leaving the store unchanged),
then compute the suggestion list with _find_similar_nodes over the updated
table with top_k = 5 and threshold = 0.5.  No access-log row and no edge
row is written.  The embedding comes from the external provider and is
passed in explicitly. -/
def insertNode (sim : Emb → Emb → ℚ) (db : DB) (nid content : String)
    (tags : List String) (priority : String) (emb : Emb) (now : Nat) :
    Except DBError (DB × InsertResult) :=
  if db.nodes.any (fun n => n.id == nid) then
    Except.error (DBError.duplicateId nid)
  else
    let db1 : DB := { db with
      nodes := db.nodes ++
        [{ id := nid, content := content, tags := tags, priority := priority
           created_at := now, access_count := 0, embedding := emb }] }
    Except.ok (db1,
      { node_id := nid
        suggested_connections := findSimilarNodes sim db1 emb nid 5 (mkRat 1 2) })

/-- One entry of the list returned by search_nodes. -/
structure SearchResult where
  node_id : String
  content : String
  tags : List String
  priority : String
  similarity : ℚ
  access_count : Nat
  deriving DecidableEq, Repr

/-- json.dumps of the tag list as stored in the tags column (default
separators; special-character escaping is not modeled — no claim depends
on it). -/
def jsonTags (tags : List String) : String :=
  "[" ++ String.intercalate ", " (tags.map (fun t => "\"" ++ t ++ "\"")) ++ "]"

/-- Whether the char sequence pat occurs at the head of l. -/
def leadMatch : List Char → List Char → Bool
  | [], _ => true
  | _ :: _, [] => false
  | a :: ps, b :: hs => a == b && leadMatch ps hs

/-- Whether the char sequence pat occurs anywhere inside hay. -/
def containsSeq (hay pat : List Char) : Bool :=
  match hay with
  | [] => pat.isEmpty
  | _ :: rest => leadMatch pat hay || containsSeq rest pat

/-- The SQL filter tags LIKE ? with pattern %"tag"%: an ASCII
case-insensitive substring test of the quoted tag against the JSON text of
the tags column. -/
def likeTagMatch (tags : List String) (t : String) : Bool :=
  containsSeq ((jsonTags tags).toLower.toList) (("\"" ++ t ++ "\"").toLower.toList)

/-- MindMapDB._log_access: append one row to access_logs. -/
def logAccess (db : DB) (nid : String) (now : Nat) (atype : String) : DB :=
  { db with logs := db.logs ++ [{ node_id := nid, accessed_at := now, access_type := atype }] }

/-- MindMapDB.search_nodes: select the candidate rows (all nodes, or —
when a non-empty tag list is given; Python treats None and [] alike here —
those matching any tag pattern), compute a similarity per row (stored
rounded to 3 decimals), sort descending by it (stable), take the first
top_k, and append one search-type access-log row per returned result
(the source loops _log_access over results[:top_k], which appends exactly
these rows in order).  No access_count changes. -/
def searchNodes (sim : Emb → Emb → ℚ) (db : DB) (queryEmb : Emb)
    (tags : Option (List String)) (topK : Nat) (now : Nat) :
    DB × List SearchResult :=
  let rows := match tags with
    | none => db.nodes
    | some [] => db.nodes
    | some ts => db.nodes.filter (fun n => ts.any (fun t => likeTagMatch n.tags t))
  let results := rows.map (fun n =>
    { node_id := n.id, content := n.content, tags := n.tags
      priority := n.priority
      similarity := round3 (sim queryEmb n.embedding)
      access_count := n.access_count } )
  let top := (sortBySimDesc (fun r => r.similarity) results).take topK
  ({ db with logs := db.logs ++ top.map (fun r =>
      { node_id := r.node_id, accessed_at := now, access_type := "search" }) },
   top)

/-- The value returned by connect_nodes. -/
structure ConnectResult where
  source_id : String
  target_id : String
  relationship : String
  semantic_strength : ℚ
  deriving DecidableEq, Repr

/-- Whether an edge row carries the given (source, target, relationship)
key. -/
def edgeKeyMatches (e : Edge) (s t r : String) : Bool :=
  e.source_id == s && e.target_id == t && e.relationship == r

/-- MindMapDB.connect_nodes: SELECT embedding FROM nodes WHERE id IN
(source, target) — the rows come back in table order, and two equal ids
collapse onto a single row — then require exactly two rows (else
ValueError "One or both nodes not found"), compute the semantic strength
from the two fetched embeddings, and INSERT OR IGNORE the edge (the
UNIQUE key makes a duplicate triple a no-op).  The returned strength is
the freshly computed one, rounded to 3 decimals. -/
def connectNodes (sim : Emb → Emb → ℚ) (db : DB)
    (sourceId targetId relationship : String) (now : Nat) :
    Except DBError (DB × ConnectResult) :=
  match db.nodes.filter (fun n => n.id == sourceId || n.id == targetId) with
  | [n1, n2] =>
    let strength := sim n1.embedding n2.embedding
    let db1 : DB :=
      if db.edges.any (fun e => edgeKeyMatches e sourceId targetId relationship) then db
      else { db with edges := db.edges ++
        [{ source_id := sourceId, target_id := targetId, relationship := relationship
           created_at := now, semantic_strength := strength }] }
    Except.ok (db1,
      { source_id := sourceId, target_id := targetId
        relationship := relationship, semantic_strength := round3 strength })
  | _ => Except.error (DBError.notFound "One or both nodes not found")

/-- The node view embedded in a navigate_node result (the reported
access_count is the post-increment value). -/
structure NodeView where
  id : String
  content : String
  tags : List String
  priority : String
  created_at : Nat
  access_count : Nat
  deriving DecidableEq, Repr

/-- One outgoing-connection row of a navigate_node result. -/
structure OutConn where
  target_id : String
  relationship : String
  semantic_strength : ℚ
  content : String
  tags : List String
  deriving DecidableEq, Repr

/-- One incoming-connection row of a navigate_node result. -/
structure InConn where
  source_id : String
  relationship : String
  semantic_strength : ℚ
  content : String
  tags : List String
  deriving DecidableEq, Repr

/-- The value returned by navigate_node. -/
structure NavResult where
  node : NodeView
  outgoing_connections : List OutConn
  incoming_connections : List InConn
  deriving DecidableEq, Repr

/-- The access_count bump performed by navigate_node's UPDATE statement on
the row(s) whose id matches. -/
def bumpAccess (nid : String) (n : Node) : Node :=
  if n.id == nid then { n with access_count := n.access_count + 1 } else n

/-- MindMapDB.navigate_node: fetch the node (ValueError when absent), join
the outgoing and incoming edges with their opposite endpoints (an edge
whose opposite endpoint is missing from the nodes table is dropped by the
inner JOIN), append one navigate-type access-log row, and increment the
node's access_count by one.  The returned view reports the fetched row's
count plus one. -/
def navigateNode (db : DB) (nid : String) (now : Nat) :
    Except DBError (DB × NavResult) :=
  match findNode db nid with
  | none => Except.error (DBError.notFound ("Node " ++ nid ++ " not found"))
  | some node =>
    let outgoing := db.edges.filterMap (fun e =>
      if e.source_id == nid then
        (findNode db e.target_id).map (fun tn =>
          ({ target_id := e.target_id, relationship := e.relationship
             semantic_strength := e.semantic_strength
             content := tn.content, tags := tn.tags } : OutConn))
      else none)
    let incoming := db.edges.filterMap (fun e =>
      if e.target_id == nid then
        (findNode db e.source_id).map (fun sn =>
          ({ source_id := e.source_id, relationship := e.relationship
             semantic_strength := e.semantic_strength
             content := sn.content, tags := sn.tags } : InConn))
      else none)
    let db1 := logAccess db nid now "navigate"
    let db2 : DB := { db1 with nodes := db1.nodes.map (bumpAccess nid) }
    Except.ok (db2,
      { node := { id := node.id, content := node.content, tags := node.tags
                  priority := node.priority, created_at := node.created_at
                  access_count := node.access_count + 1 }
        outgoing_connections := outgoing
        incoming_connections := incoming })

/-- The value returned by get_stats. -/
structure Stats where
  total_nodes : Nat
  total_edges : Nat
  most_connected_node : Option (String × String × Nat)
  most_accessed_node : Option (String × String × Nat)
  deriving DecidableEq, Repr

/-- A node's degree as counted by the stats LEFT JOIN: the number of edge
rows in which the id appears as source or as target (each edge counted
once). -/
def nodeDegree (db : DB) (nid : String) : Nat :=
  (db.edges.filter (fun e => e.source_id == nid || e.target_id == nid)).length

/-- ORDER BY f DESC LIMIT 1 over an append-only table: the first row in
table order among those maximizing f — on ties the outcome is the
incidental storage order, which is what the source relies on. -/
def pickMaxBy {α : Type} (f : α → Nat) (l : List α) : Option α :=
  l.foldl (fun best x =>
    match best with
    | none => some x
    | some b => if f b < f x then some x else some b) none

/-- MindMapDB.get_stats: total row counts, the node of maximum degree and
the node of maximum access_count (each as (id, content, count)); on an
empty table both LIMIT 1 queries return no row, modeled as none. -/
def getStats (db : DB) : Stats :=
  { total_nodes := db.nodes.length
    total_edges := db.edges.length
    most_connected_node := (pickMaxBy (fun n => nodeDegree db n.id) db.nodes).map
      (fun n => (n.id, n.content, nodeDegree db n.id))
    most_accessed_node := (pickMaxBy (fun n => n.access_count) db.nodes).map
      (fun n => (n.id, n.content, n.access_count)) }

/-- MindMapDB.get_all_nodes: the nodes table in row order, without
embeddings. -/
def getAllNodes (db : DB) : List (String × String × List String × String × Nat) :=
  db.nodes.map (fun n => (n.id, n.content, n.tags, n.priority, n.access_count))

/-- MindMapDB.get_all_edges: the edges table in row order. -/
def getAllEdges (db : DB) : List (String × String × String × ℚ) :=
  db.edges.map (fun e => (e.source_id, e.target_id, e.relationship, e.semantic_strength))

/-- Dot product over the reals, modeling np.dot on the embedding floats. -/
noncomputable def dotR (a b : List ℝ) : ℝ := (List.zipWith (fun x y => x * y) a b).sum

/-- Euclidean norm over the reals, modeling np.linalg.norm. -/
noncomputable def normR (a : List ℝ) : ℝ := Real.sqrt (dotR a a)

open Classical in
/-- The similarity expression the source evaluates, np.dot(a, b) /
(np.linalg.norm(a) * np.linalg.norm(b)), with its IEEE behaviour at a zero
denominator made explicit: when either norm is zero the numerator is zero
as well (a zero-norm real vector is the zero vector), so the float
division is 0.0 / 0.0 = NaN — numpy emits a RuntimeWarning but raises no
exception.  NaN is modeled as none; a well-defined quotient as some. -/
noncomputable def cosineSimCode (a b : List ℝ) : Option ℝ :=
  if normR a * normR b = 0 then none
  else some (dotR a b / (normR a * normR b))

open Classical in
/-- Modelled from the spec: cosine_similarity(a, b) = dot(a, b) /
(norm(a) * norm(b)), defined as 0 when either vector has zero norm — the
guarded edge-case policy the spec mandates (section 4.2 and design note 5),
which is absent from the source. -/
noncomputable def cosineSimSpec (a b : List ℝ) : ℝ :=
  if normR a = 0 ∨ normR b = 0 then 0
  else dotR a b / (normR a * normR b)

/-! Helper lemmas shared by the claim theorems. -/

theorem sortBySimDesc_perm {α : Type} (key : α → ℚ) (l : List α) :
    (sortBySimDesc key l).Perm l :=
  List.perm_insertionSort (fun x y => key y ≤ key x) l

theorem sortBySimDesc_sorted {α : Type} (key : α → ℚ) (l : List α) :
    (sortBySimDesc key l).Pairwise (fun x y => key y ≤ key x) :=
  @List.sorted_insertionSort α (fun x y => key y ≤ key x) (fun _ _ => inferInstance)
    ⟨fun a b => le_total (key b) (key a)⟩
    ⟨fun _ _ _ hab hbc => le_trans hbc hab⟩ l

theorem length_filter_eq_count {α β : Type} [DecidableEq β] (f : α → β) (l : List α) (k : β) :
    (l.filter (fun a => f a == k)).length = (l.map f).count k := by
  rw [List.count, List.countP_map, ← List.countP_eq_length_filter]
  rfl

theorem length_filter_id_le_one {α β : Type} [DecidableEq β] (f : α → β) (l : List α) (k : β)
    (h : (l.map f).Nodup) : (l.filter (fun a => f a == k)).length ≤ 1 := by
  rw [length_filter_eq_count]
  exact List.nodup_iff_count_le_one.mp h k

theorem length_filter_id_eq_one {α β : Type} [DecidableEq β] (f : α → β) (l : List α) (k : β)
    (h : (l.map f).Nodup) (hk : k ∈ l.map f) : (l.filter (fun a => f a == k)).length = 1 := by
  have h1 := length_filter_id_le_one f l k h
  have h2 : 0 < (l.filter (fun a => f a == k)).length := by
    rw [length_filter_eq_count]
    exact List.count_pos_iff.mpr hk
  omega

theorem filter_or_length {α : Type} (p q : α → Bool) (l : List α)
    (hdisj : ∀ a ∈ l, ¬(p a = true ∧ q a = true)) :
    (l.filter (fun a => p a || q a)).length = (l.filter p).length + (l.filter q).length := by
  induction l with
  | nil => rfl
  | cons x xs ih =>
    have hx := hdisj x (List.mem_cons_self x xs)
    have ih2 := ih (fun a ha => hdisj a (List.mem_cons_of_mem x ha))
    cases hp : p x <;> cases hq : q x
    · simp [List.filter_cons, hp, hq, ih2]
    · simp [List.filter_cons, hp, hq, ih2]
      omega
    · simp [List.filter_cons, hp, hq, ih2]
      omega
    · exact absurd ⟨hp, hq⟩ hx

theorem length_filterMap_ite {α β : Type} (p : α → Prop) [DecidablePred p] (g : α → β)
    (l : List α) :
    (l.filterMap (fun a => if p a then some (g a) else none)).length
      = (l.filter (fun a => decide (p a))).length := by
  induction l with
  | nil => rfl
  | cons x xs ih =>
    by_cases hx : p x <;> simp [List.filterMap_cons, List.filter_cons, hx, ih]

/-! Characterization of the row set fetched by connect_nodes. -/

theorem connectNodes_error_of_rows_ne_two (sim : Emb → Emb → ℚ) (db : DB)
    (s t rel : String) (now : Nat)
    (h : (db.nodes.filter (fun n => n.id == s || n.id == t)).length ≠ 2) :
    connectNodes sim db s t rel now =
      Except.error (DBError.notFound "One or both nodes not found") := by
  unfold connectNodes
  rcases hrows : db.nodes.filter (fun n => n.id == s || n.id == t) with
    _ | ⟨n1, _ | ⟨n2, _ | ⟨n3, rest⟩⟩⟩
  · rw [hrows]
  · rw [hrows]
  · rw [hrows] at h
    simp at h
  · rw [hrows]

theorem connectNodes_ok_of_rows_pair (sim : Emb → Emb → ℚ) (db : DB)
    (s t rel : String) (now : Nat) (n1 n2 : Node)
    (hrows : db.nodes.filter (fun n => n.id == s || n.id == t) = [n1, n2]) :
    connectNodes sim db s t rel now =
      Except.ok
        ((if db.edges.any (fun e => edgeKeyMatches e s t rel) then db
          else { db with edges := db.edges ++
            [{ source_id := s, target_id := t, relationship := rel
               created_at := now
               semantic_strength := sim n1.embedding n2.embedding }] }),
         { source_id := s, target_id := t, relationship := rel
           semantic_strength := round3 (sim n1.embedding n2.embedding) }) := by
  unfold connectNodes
  rw [hrows]

theorem rows_eq_pair (db : DB) (s t : String) (hnodup : NodesUnique db)
    (hs : s ∈ db.nodes.map (fun n => n.id)) (ht : t ∈ db.nodes.map (fun n => n.id))
    (hst : s ≠ t) :
    ∃ n1 n2, db.nodes.filter (fun n => n.id == s || n.id == t) = [n1, n2] := by
  have h1 : (db.nodes.filter (fun n => n.id == s)).length = 1 :=
    length_filter_id_eq_one (fun n => n.id) db.nodes s hnodup hs
  have h2 : (db.nodes.filter (fun n => n.id == t)).length = 1 :=
    length_filter_id_eq_one (fun n => n.id) db.nodes t hnodup ht
  have hlen : (db.nodes.filter (fun n => n.id == s || n.id == t)).length = 2 := by
    rw [filter_or_length (fun n => n.id == s) (fun n => n.id == t) db.nodes ?hd, h1, h2]
    case hd =>
      rintro a _ ⟨ha1, ha2⟩
      exact hst ((beq_iff_eq.mp ha1).symm.trans (beq_iff_eq.mp ha2))
  exact List.length_eq_two.mp hlen

theorem rows_len_le_one_self (db : DB) (x : String) (hnodup : NodesUnique db) :
    (db.nodes.filter (fun n => n.id == x || n.id == x)).length ≤ 1 := by
  have hcg : db.nodes.filter (fun n => n.id == x || n.id == x)
      = db.nodes.filter (fun n => n.id == x) :=
    List.filter_congr (fun n _ => Bool.or_self (n.id == x))
  rw [hcg]
  exact length_filter_id_le_one (fun n => n.id) db.nodes x hnodup

theorem rows_len_le_one_of_absent_left (db : DB) (s t : String) (hnodup : NodesUnique db)
    (hs : s ∉ db.nodes.map (fun n => n.id)) :
    (db.nodes.filter (fun n => n.id == s || n.id == t)).length ≤ 1 := by
  have hcg : db.nodes.filter (fun n => n.id == s || n.id == t)
      = db.nodes.filter (fun n => n.id == t) := by
    refine List.filter_congr (fun n hn => ?_)
    have hne : (n.id == s) = false := by
      refine beq_eq_false_iff_ne.mpr (fun he => hs ?_)
      exact he ▸ List.mem_map_of_mem (fun n => n.id) hn
    rw [hne, Bool.false_or]
  rw [hcg]
  exact length_filter_id_le_one (fun n => n.id) db.nodes t hnodup

theorem rows_len_le_one_of_absent_right (db : DB) (s t : String) (hnodup : NodesUnique db)
    (ht : t ∉ db.nodes.map (fun n => n.id)) :
    (db.nodes.filter (fun n => n.id == s || n.id == t)).length ≤ 1 := by
  have hcg : db.nodes.filter (fun n => n.id == s || n.id == t)
      = db.nodes.filter (fun n => n.id == s) := by
    refine List.filter_congr (fun n hn => ?_)
    have hne : (n.id == t) = false := by
      refine beq_eq_false_iff_ne.mpr (fun he => ht ?_)
      exact he ▸ List.mem_map_of_mem (fun n => n.id) hn
    rw [hne, Bool.or_false]
  rw [hcg]
  exact length_filter_id_le_one (fun n => n.id) db.nodes s hnodup

/-! Concrete stores used by witnesses and counterexamples. -/

/-- A minimal node row with a given id, used to build concrete stores. -/
def plainNode (i : String) : Node :=
  { id := i, content := "c" ++ i, tags := [], priority := "normal"
    created_at := 0, access_count := 0, embedding := [1] }

/-- A minimal edge row with a given key, used to build concrete stores. -/
def plainEdge (s t rel : String) : Edge :=
  { source_id := s, target_id := t, relationship := rel
    created_at := 0, semantic_strength := 1 }

/-- A similarity function used to instantiate the sim parameter in
concrete witnesses: it reads the candidate embedding's first coordinate,
so similarity values can be dictated exactly through the stored vectors
(values are chosen with norm-1 interpretations in mind). -/
def headSim : Emb → Emb → ℚ := fun _ e => e.headD 0

/-! Claim C10. -/

/-- Claim C10: on an empty store (no nodes and no edges) get_stats
succeeds rather than failing and returns total_nodes = 0, total_edges = 0,
most_connected_node = None and most_accessed_node = None (get_stats is a
total function of the store, and both LIMIT 1 queries yield no row). -/
theorem C10_empty_stats :
    getStats { nodes := [], edges := [], logs := [] } =
      { total_nodes := 0, total_edges := 0
        most_connected_node := none, most_accessed_node := none } := rfl

/-! Claim C8. -/

def dbC8deg : DB :=
  { nodes := [plainNode "c", plainNode "d", plainNode "e",
              plainNode "f", plainNode "g", plainNode "h"]
    edges := [plainEdge "c" "d" "r1", plainEdge "c" "e" "r2", plainEdge "c" "f" "r3",
              plainEdge "g" "c" "r4", plainEdge "h" "c" "r5"]
    logs := [] }

def dbC8ab : DB := { nodes := [plainNode "a", plainNode "b"], edges := [], logs := [] }

def dbC8ba : DB := { nodes := [plainNode "b", plainNode "a"], edges := [], logs := [] }

/-- Claim C8 (code bug): the counting part of the claim holds — a node
with 3 outgoing and 2 incoming edges reports degree 5 and is returned as
most connected — but the tie-break part fails: two stores holding the same
nodes (a permutation of each other) and the same (empty) edge table return
different most-connected nodes, so ties are resolved by incidental storage
order, not by any explicit order-independent rule. -/
theorem C8_stats_degree_and_tie_order :
    nodeDegree dbC8deg "c" = 5 ∧
    (getStats dbC8deg).most_connected_node = some ("c", "cc", 5) ∧
    dbC8ab.nodes.Perm dbC8ba.nodes ∧ dbC8ab.edges = dbC8ba.edges ∧
    dbC8ab.logs = dbC8ba.logs ∧
    (getStats dbC8ab).most_connected_node = some ("a", "ca", 0) ∧
    (getStats dbC8ba).most_connected_node = some ("b", "cb", 0) := by decide

/-! Claim C9. -/

/-- Claim C9: for every node id x present in a store with unique ids and
every relationship string, connect_nodes(x, x, rel) fails with the
not-found error: the SQL IN (?, ?) lookup collapses the two equal ids into
a single fetched row, the two-row check fails, and consequently no
self-loop edge is ever created through connect_nodes. -/
theorem C9_self_connect_not_found (sim : Emb → Emb → ℚ) (db : DB) (x rel : String)
    (now : Nat) (hnodup : NodesUnique db) (hx : x ∈ db.nodes.map (fun n => n.id)) :
    connectNodes sim db x x rel now =
      Except.error (DBError.notFound "One or both nodes not found") := by
  refine connectNodes_error_of_rows_ne_two sim db x x rel now ?_
  have h := rows_len_le_one_self db x hnodup
  omega

def dbC9 : DB := { nodes := [plainNode "a"], edges := [], logs := [] }

theorem C9_self_connect_not_found_witness :
    NodesUnique dbC9 ∧ "a" ∈ dbC9.nodes.map (fun n => n.id) ∧
      connectNodes headSim dbC9 "a" "a" "builds_on" 3 =
        Except.error (DBError.notFound "One or both nodes not found") :=
  ⟨by decide, by decide,
    C9_self_connect_not_found headSim dbC9 "a" "builds_on" 3 (by decide) (by decide)⟩

/-! Claim C1. -/

/-- Claim C1 (code bug): at a zero-norm embedding the similarity the code
computes is the IEEE float NaN, not the 0 the claim (and the spec's
edge-case policy) mandates: with a = [0] and b = [1] the denominator
norm(a) * norm(b) is 0, the division is 0.0 / 0.0 = NaN (modeled none),
while the spec-side guarded cosine returns 0 there. -/
theorem C1_zero_norm_cosine_nan :
    cosineSimCode [(0 : ℝ)] [(1 : ℝ)] = none ∧
      cosineSimSpec [(0 : ℝ)] [(1 : ℝ)] = 0 := by
  have hz : normR [(0 : ℝ)] = 0 := by
    unfold normR dotR
    simp
  constructor
  · unfold cosineSimCode
    rw [hz, zero_mul, if_pos rfl]
  · unfold cosineSimSpec
    rw [hz, if_pos (Or.inl rfl)]

/-! Claim C3. -/

def dbC3 : DB := { nodes := [plainNode "a"], edges := [], logs := [] }

/-- Claim C3 counterexample: in a store containing the node "a", both
endpoint ids of connect_nodes("a", "a", rel) refer to an existing node,
yet the call fails with the not-found error — refuting the claim that the
call succeeds whenever both endpoint ids refer to existing nodes,
including the case source_id = target_id. -/
theorem C3_counterexample :
    (findNode dbC3 "a").isSome = true ∧
      connectNodes headSim dbC3 "a" "a" "supports" 5 =
        Except.error (DBError.notFound "One or both nodes not found") := by decide

/-- Claim C3 (amended): in a store with unique node ids, connect_nodes
fails with the not-found error whenever either endpoint id is missing or
the two endpoint ids are equal, and succeeds whenever both endpoints
exist and are distinct — in that case it computes the strength from the
two fetched embeddings, leaves nodes and logs untouched, keeps the edge
table unchanged when the (source, target, relationship) triple already
exists, and appends exactly one edge carrying that triple when it is
new. -/
theorem C3_connect_not_found_iff (sim : Emb → Emb → ℚ) (db : DB) (s t rel : String)
    (now : Nat) (hnodup : NodesUnique db) :
    ((s = t ∨ s ∉ db.nodes.map (fun n => n.id) ∨ t ∉ db.nodes.map (fun n => n.id)) →
      connectNodes sim db s t rel now =
        Except.error (DBError.notFound "One or both nodes not found")) ∧
    (s ≠ t → s ∈ db.nodes.map (fun n => n.id) → t ∈ db.nodes.map (fun n => n.id) →
      ∃ db1 res, connectNodes sim db s t rel now = Except.ok (db1, res) ∧
        res.source_id = s ∧ res.target_id = t ∧ res.relationship = rel ∧
        db1.nodes = db.nodes ∧ db1.logs = db.logs ∧
        (db.edges.any (fun e => edgeKeyMatches e s t rel) = true →
          db1.edges = db.edges) ∧
        (db.edges.any (fun e => edgeKeyMatches e s t rel) = false →
          ∃ enew, db1.edges = db.edges ++ [enew] ∧
            edgeKeyMatches enew s t rel = true ∧ enew.created_at = now)) := by
  constructor
  · intro hcase
    refine connectNodes_error_of_rows_ne_two sim db s t rel now ?_
    rcases hcase with he | hs | ht
    · subst he
      have h := rows_len_le_one_self db s hnodup
      omega
    · have h := rows_len_le_one_of_absent_left db s t hnodup hs
      omega
    · have h := rows_len_le_one_of_absent_right db s t hnodup ht
      omega
  · intro hst hs ht
    obtain ⟨n1, n2, hrows⟩ := rows_eq_pair db s t hnodup hs ht hst
    cases hkey : db.edges.any (fun e => edgeKeyMatches e s t rel) with
    | true =>
      refine ⟨db,
        { source_id := s, target_id := t, relationship := rel
          semantic_strength := round3 (sim n1.embedding n2.embedding) },
        ?_, rfl, rfl, rfl, rfl, rfl, fun _ => rfl, ?_⟩
      · rw [connectNodes_ok_of_rows_pair sim db s t rel now n1 n2 hrows, hkey]
        rfl
      · intro hfalse
        exact Bool.noConfusion hfalse
    | false =>
      refine ⟨{ db with edges := db.edges ++
          [{ source_id := s, target_id := t, relationship := rel
             created_at := now
             semantic_strength := sim n1.embedding n2.embedding }] },
        { source_id := s, target_id := t, relationship := rel
          semantic_strength := round3 (sim n1.embedding n2.embedding) },
        ?_, rfl, rfl, rfl, rfl, rfl, ?_, ?_⟩
      · rw [connectNodes_ok_of_rows_pair sim db s t rel now n1 n2 hrows, hkey]
        rfl
      · intro htrue
        exact Bool.noConfusion htrue
      · intro _
        refine ⟨_, rfl, ?_, rfl⟩
        simp [edgeKeyMatches]

def dbC3w : DB := { nodes := [plainNode "a", plainNode "b"], edges := [], logs := [] }

theorem C3_connect_not_found_iff_witness :
    NodesUnique dbC3w ∧ ("a" : String) ≠ "b" ∧
      "a" ∈ dbC3w.nodes.map (fun n => n.id) ∧
      "b" ∈ dbC3w.nodes.map (fun n => n.id) ∧
      (∃ db1 res, connectNodes headSim dbC3w "a" "b" "supports" 4 = Except.ok (db1, res) ∧
        res.source_id = "a" ∧ res.target_id = "b" ∧ res.relationship = "supports" ∧
        db1.nodes = dbC3w.nodes ∧ db1.logs = dbC3w.logs ∧
        (dbC3w.edges.any (fun e => edgeKeyMatches e "a" "b" "supports") = true →
          db1.edges = dbC3w.edges) ∧
        (dbC3w.edges.any (fun e => edgeKeyMatches e "a" "b" "supports") = false →
          ∃ enew, db1.edges = dbC3w.edges ++ [enew] ∧
            edgeKeyMatches enew "a" "b" "supports" = true ∧ enew.created_at = 4)) ∧
      connectNodes headSim dbC3w "b" "b" "supports" 4 =
        Except.error (DBError.notFound "One or both nodes not found") :=
  ⟨by decide, by decide, by decide, by decide,
    (C3_connect_not_found_iff headSim dbC3w "a" "b" "supports" 4 (by decide)).2
      (by decide) (by decide) (by decide),
    (C3_connect_not_found_iff headSim dbC3w "b" "b" "supports" 4 (by decide)).1
      (Or.inl rfl)⟩

/-! Claim C2. -/

theorem edgeKeyMatches_iff (e : Edge) (s t r : String) :
    edgeKeyMatches e s t r = true ↔
      (e.source_id = s ∧ e.target_id = t ∧ e.relationship = r) := by
  simp [edgeKeyMatches, and_assoc]

theorem length_filter_le_one_of_pairwise {α : Type} (p : α → Bool) (l : List α)
    (h : l.Pairwise (fun x y => ¬(p x = true ∧ p y = true))) :
    (l.filter p).length ≤ 1 := by
  induction l with
  | nil => simp
  | cons x xs ih =>
    rcases List.pairwise_cons.mp h with ⟨hx, hxs⟩
    cases hp : p x
    · simpa [List.filter_cons, hp] using ih hxs
    · have hnil : xs.filter p = [] := by
        refine List.filter_eq_nil_iff.mpr (fun a ha hpa => hx a ha ⟨hp, hpa⟩)
      simp [List.filter_cons, hp, hnil]

/-- Claim C2: connect_nodes is idempotent.  For distinct existing nodes a
and b in a store with unique node ids and unique edge keys, the first call
succeeds yielding a store with exactly one edge carrying the key
(a, b, rel), and a second call returns exactly the same result (in
particular the same semantic_strength, recomputed from the unchanged
embeddings) while leaving the store exactly as the first call left it —
no duplicate edge, no modification of the stored edge. -/
theorem C2_connect_idempotent (sim : Emb → Emb → ℚ) (db : DB) (a b rel : String)
    (t1 t2 : Nat) (hnodup : NodesUnique db) (hkeys : EdgeKeysUnique db)
    (ha : a ∈ db.nodes.map (fun n => n.id)) (hb : b ∈ db.nodes.map (fun n => n.id))
    (hab : a ≠ b) :
    ∃ db1 res,
      connectNodes sim db a b rel t1 = Except.ok (db1, res) ∧
      connectNodes sim db1 a b rel t2 = Except.ok (db1, res) ∧
      (db1.edges.filter (fun e => edgeKeyMatches e a b rel)).length = 1 := by
  obtain ⟨n1, n2, hrows⟩ := rows_eq_pair db a b hnodup ha hb hab
  cases hkey : db.edges.any (fun e => edgeKeyMatches e a b rel) with
  | true =>
    refine ⟨db, { source_id := a, target_id := b, relationship := rel
                  semantic_strength := round3 (sim n1.embedding n2.embedding) },
            ?_, ?_, ?_⟩
    · rw [connectNodes_ok_of_rows_pair sim db a b rel t1 n1 n2 hrows, hkey]
      rfl
    · rw [connectNodes_ok_of_rows_pair sim db a b rel t2 n1 n2 hrows, hkey]
      rfl
    · have himp : ∀ {e1 e2 : Edge},
          ¬(e1.source_id = e2.source_id ∧ e1.target_id = e2.target_id ∧
            e1.relationship = e2.relationship) →
          ¬(edgeKeyMatches e1 a b rel = true ∧ edgeKeyMatches e2 a b rel = true) := by
        intro e1 e2 hne h12
        obtain ⟨h1, h2⟩ := h12
        obtain ⟨ha1, hb1, hr1⟩ := (edgeKeyMatches_iff e1 a b rel).mp h1
        obtain ⟨ha2, hb2, hr2⟩ := (edgeKeyMatches_iff e2 a b rel).mp h2
        exact hne ⟨ha1.trans ha2.symm, hb1.trans hb2.symm, hr1.trans hr2.symm⟩
      have hle := length_filter_le_one_of_pairwise
        (fun e => edgeKeyMatches e a b rel) db.edges (hkeys.imp himp)
      obtain ⟨e, he, hpe⟩ := List.any_eq_true.mp hkey
      have hmem : e ∈ db.edges.filter (fun e => edgeKeyMatches e a b rel) :=
        List.mem_filter.mpr ⟨he, hpe⟩
      have hpos := List.length_pos_of_mem hmem
      omega
  | false =>
    refine ⟨{ db with edges := db.edges ++
        [{ source_id := a, target_id := b, relationship := rel
           created_at := t1, semantic_strength := sim n1.embedding n2.embedding }] },
      { source_id := a, target_id := b, relationship := rel
        semantic_strength := round3 (sim n1.embedding n2.embedding) },
      ?_, ?_, ?_⟩
    · rw [connectNodes_ok_of_rows_pair sim db a b rel t1 n1 n2 hrows, hkey]
      rfl
    · have hrows1 : ({ db with edges := db.edges ++
          [{ source_id := a, target_id := b, relationship := rel
             created_at := t1
             semantic_strength := sim n1.embedding n2.embedding }] } : DB).nodes.filter
            (fun n => n.id == a || n.id == b) = [n1, n2] := hrows
      rw [connectNodes_ok_of_rows_pair sim _ a b rel t2 n1 n2 hrows1]
      simp [List.any_append, edgeKeyMatches]
    · have hnil : db.edges.filter (fun e => edgeKeyMatches e a b rel) = [] := by
        refine List.filter_eq_nil_iff.mpr (fun e he hpe => ?_)
        have hx : db.edges.any (fun e => edgeKeyMatches e a b rel) = true :=
          List.any_eq_true.mpr ⟨e, he, hpe⟩
        rw [hkey] at hx
        exact Bool.noConfusion hx
      show ((db.edges ++
          [({ source_id := a, target_id := b, relationship := rel
              created_at := t1
              semantic_strength := sim n1.embedding n2.embedding } : Edge)]).filter
          (fun e => edgeKeyMatches e a b rel)).length = 1
      rw [List.filter_append, hnil]
      simp [edgeKeyMatches]

def dbC2 : DB := { nodes := [plainNode "a", plainNode "b"], edges := [], logs := [] }

theorem C2_connect_idempotent_witness :
    NodesUnique dbC2 ∧ EdgeKeysUnique dbC2 ∧
      "a" ∈ dbC2.nodes.map (fun n => n.id) ∧ "b" ∈ dbC2.nodes.map (fun n => n.id) ∧
      ("a" : String) ≠ "b" ∧
      (∃ db1 res, connectNodes headSim dbC2 "a" "b" "rel1" 1 = Except.ok (db1, res) ∧
        connectNodes headSim db1 "a" "b" "rel1" 2 = Except.ok (db1, res) ∧
        (db1.edges.filter (fun e => edgeKeyMatches e "a" "b" "rel1")).length = 1) :=
  ⟨by decide, by decide, by decide, by decide, by decide,
    C2_connect_idempotent headSim dbC2 "a" "b" "rel1" 1 2 (by decide) (by decide)
      (by decide) (by decide) (by decide)⟩

/-! Claim C7. -/

/-- Claim C7: insert_node fails with the duplicate-id error whenever a
node with the id already exists — the failed INSERT is atomic, so the
error result carries no modified state (no node row, no edge, no log
row) — and on a fresh id it persists exactly one new node row (with
access_count 0) while writing no edge and no access-log entry. -/
theorem C7_insert_duplicate_and_fresh (sim : Emb → Emb → ℚ) (db : DB) (nid c : String)
    (tags : List String) (pr : String) (emb : Emb) (now : Nat) :
    ((∃ n ∈ db.nodes, n.id = nid) →
      insertNode sim db nid c tags pr emb now = Except.error (DBError.duplicateId nid)) ∧
    ((∀ n ∈ db.nodes, n.id ≠ nid) →
      ∃ db1 res, insertNode sim db nid c tags pr emb now = Except.ok (db1, res) ∧
        db1.nodes = db.nodes ++
          [{ id := nid, content := c, tags := tags, priority := pr
             created_at := now, access_count := 0, embedding := emb }] ∧
        db1.edges = db.edges ∧ db1.logs = db.logs ∧ res.node_id = nid) := by
  constructor
  · rintro ⟨n, hn, hid⟩
    have hany : db.nodes.any (fun n => n.id == nid) = true :=
      List.any_eq_true.mpr ⟨n, hn, beq_iff_eq.mpr hid⟩
    unfold insertNode
    rw [hany]
    rfl
  · intro hfresh
    have hany : db.nodes.any (fun n => n.id == nid) = false :=
      List.any_eq_false.mpr (fun n hn hbeq => hfresh n hn (beq_iff_eq.mp hbeq))
    unfold insertNode
    rw [hany]
    exact ⟨_, _, rfl, rfl, rfl, rfl, rfl⟩

def dbC7 : DB := { nodes := [plainNode "a"], edges := [], logs := [] }

theorem C7_insert_duplicate_and_fresh_witness :
    (∃ n ∈ dbC7.nodes, n.id = "a") ∧
    insertNode headSim dbC7 "a" "x" [] "normal" [1] 9 =
      Except.error (DBError.duplicateId "a") ∧
    (∀ n ∈ dbC7.nodes, n.id ≠ "b") ∧
    (∃ db1 res, insertNode headSim dbC7 "b" "x" ["t"] "high" [mkRat 1 2] 9 =
        Except.ok (db1, res) ∧
      db1.nodes = dbC7.nodes ++
        [{ id := "b", content := "x", tags := ["t"], priority := "high"
           created_at := 9, access_count := 0, embedding := [mkRat 1 2] }] ∧
      db1.edges = dbC7.edges ∧ db1.logs = dbC7.logs ∧ res.node_id = "b") :=
  ⟨by decide,
   (C7_insert_duplicate_and_fresh headSim dbC7 "a" "x" [] "normal" [1] 9).1 (by decide),
   by decide,
   (C7_insert_duplicate_and_fresh headSim dbC7 "b" "x" ["t"] "high" [mkRat 1 2] 9).2
     (by decide)⟩

/-! Claim C4. -/

theorem insertNode_ok_of_fresh (sim : Emb → Emb → ℚ) (db : DB) (nid c : String)
    (tags : List String) (pr : String) (emb : Emb) (now : Nat)
    (hfresh : ∀ n ∈ db.nodes, n.id ≠ nid) :
    insertNode sim db nid c tags pr emb now = Except.ok
      ({ db with nodes := db.nodes ++
         [{ id := nid, content := c, tags := tags, priority := pr
            created_at := now, access_count := 0, embedding := emb }] },
       { node_id := nid
         suggested_connections := findSimilarNodes sim
           { db with nodes := db.nodes ++
             [{ id := nid, content := c, tags := tags, priority := pr
                created_at := now, access_count := 0, embedding := emb }] }
           emb nid 5 (mkRat 1 2) }) := by
  have hany : db.nodes.any (fun n => n.id == nid) = false :=
    List.any_eq_false.mpr (fun n hn hbeq => hfresh n hn (beq_iff_eq.mp hbeq))
  unfold insertNode
  rw [hany]
  rfl

theorem navigateNode_ok_of_found (db : DB) (nid : String) (now : Nat) (node : Node)
    (hfind : findNode db nid = some node) :
    navigateNode db nid now = Except.ok
      ({ db with
         nodes := db.nodes.map (bumpAccess nid)
         logs := db.logs ++
           [{ node_id := nid, accessed_at := now, access_type := "navigate" }] },
       { node := { id := node.id, content := node.content, tags := node.tags
                   priority := node.priority, created_at := node.created_at
                   access_count := node.access_count + 1 }
         outgoing_connections := db.edges.filterMap (fun e =>
           if e.source_id == nid then
             (findNode db e.target_id).map (fun tn =>
               ({ target_id := e.target_id, relationship := e.relationship
                  semantic_strength := e.semantic_strength
                  content := tn.content, tags := tn.tags } : OutConn))
           else none)
         incoming_connections := db.edges.filterMap (fun e =>
           if e.target_id == nid then
             (findNode db e.source_id).map (fun sn =>
               ({ source_id := e.source_id, relationship := e.relationship
                  semantic_strength := e.semantic_strength
                  content := sn.content, tags := sn.tags } : InConn))
           else none) }) := by
  unfold navigateNode
  rw [hfind]
  rfl

/-- Claim C4: access_count counts exactly the completed navigate
operations.  (1) A successful navigate appends exactly one navigate-type
log row, leaves the edges untouched, reports the target's count
incremented by exactly one, keeps every other node row unchanged in the
store and replaces the target row by the row with count + 1.  (2) A search
never changes any node row (hence no access_count) nor any edge, and
appends exactly one search-type log row per returned result.  (3) Round
trip: inserting a fresh node (no edge touching its id) and navigating to
it once yields access_count = 1 — both in the returned view and in the
stored row — and zero outgoing and zero incoming connections. -/
theorem C4_access_counting :
    (∀ (db : DB) (nid : String) (now : Nat) (node : Node),
      findNode db nid = some node →
      ∃ db2 res, navigateNode db nid now = Except.ok (db2, res) ∧
        db2.logs = db.logs ++
          [{ node_id := nid, accessed_at := now, access_type := "navigate" }] ∧
        db2.edges = db.edges ∧
        res.node.access_count = node.access_count + 1 ∧
        (∀ n ∈ db.nodes, n.id ≠ nid → n ∈ db2.nodes) ∧
        (∀ n ∈ db.nodes, n.id = nid →
          { n with access_count := n.access_count + 1 } ∈ db2.nodes)) ∧
    (∀ (sim : Emb → Emb → ℚ) (db : DB) (qe : Emb) (tags : Option (List String))
      (topK now : Nat) (db1 : DB) (res : List SearchResult),
      searchNodes sim db qe tags topK now = (db1, res) →
      db1.nodes = db.nodes ∧ db1.edges = db.edges ∧
      db1.logs = db.logs ++ res.map (fun r =>
        { node_id := r.node_id, accessed_at := now, access_type := "search" })) ∧
    (∀ (sim : Emb → Emb → ℚ) (db : DB) (nid c : String) (tags : List String)
      (pr : String) (emb : Emb) (t1 t2 : Nat),
      (∀ n ∈ db.nodes, n.id ≠ nid) →
      (∀ e ∈ db.edges, e.source_id ≠ nid ∧ e.target_id ≠ nid) →
      ∃ db1 r1 db2 r2,
        insertNode sim db nid c tags pr emb t1 = Except.ok (db1, r1) ∧
        navigateNode db1 nid t2 = Except.ok (db2, r2) ∧
        r2.node.access_count = 1 ∧
        r2.outgoing_connections = [] ∧ r2.incoming_connections = [] ∧
        (∃ nn, findNode db2 nid = some nn ∧ nn.access_count = 1)) := by
  refine ⟨?part1, ?part2, ?part3⟩
  case part1 =>
    intro db nid now node hfind
    refine ⟨_, _, navigateNode_ok_of_found db nid now node hfind, rfl, rfl, rfl, ?_, ?_⟩
    · intro n hn hne
      refine List.mem_map.mpr ⟨n, hn, ?_⟩
      unfold bumpAccess
      rw [beq_eq_false_iff_ne.mpr hne]
      rfl
    · intro n hn hid
      refine List.mem_map.mpr ⟨n, hn, ?_⟩
      unfold bumpAccess
      rw [beq_iff_eq.mpr hid]
      rfl
  case part2 =>
    intro sim db qe tags topK now db1 res heq
    have h1 : db1 = (searchNodes sim db qe tags topK now).1 := by rw [heq]
    have h2 : res = (searchNodes sim db qe tags topK now).2 := by rw [heq]
    subst h1
    subst h2
    exact ⟨rfl, rfl, rfl⟩
  case part3 =>
    intro sim db nid c tags pr emb t1 t2 hfresh hedges
    have hnone : db.nodes.find? (fun n => n.id == nid) = none :=
      List.find?_eq_none.mpr (fun n hn hbeq => hfresh n hn (beq_iff_eq.mp hbeq))
    have hfind1 : findNode { db with nodes := db.nodes ++
        [{ id := nid, content := c, tags := tags, priority := pr
           created_at := t1, access_count := 0, embedding := emb }] } nid =
        some { id := nid, content := c, tags := tags, priority := pr
               created_at := t1, access_count := 0, embedding := emb } := by
      unfold findNode
      show (db.nodes ++
        [({ id := nid, content := c, tags := tags, priority := pr
            created_at := t1, access_count := 0, embedding := emb } : Node)]).find?
          (fun n => n.id == nid) = _
      rw [List.find?_append, hnone]
      simp
    refine ⟨_, _, _, _, insertNode_ok_of_fresh sim db nid c tags pr emb t1 hfresh,
      navigateNode_ok_of_found _ nid t2 _ hfind1, ?_, ?_, ?_, ?_⟩
    · rfl
    · refine List.filterMap_eq_nil_iff.mpr (fun e he => ?_)
      rw [beq_eq_false_iff_ne.mpr (hedges e he).1]
      rfl
    · refine List.filterMap_eq_nil_iff.mpr (fun e he => ?_)
      rw [beq_eq_false_iff_ne.mpr (hedges e he).2]
      rfl
    · have hnone2 : (db.nodes.map (bumpAccess nid)).find? (fun n => n.id == nid) = none := by
        refine List.find?_eq_none.mpr (fun x hx => ?_)
        obtain ⟨n, hn, rfl⟩ := List.mem_map.mp hx
        have hbn : bumpAccess nid n = n := by
          unfold bumpAccess
          rw [beq_eq_false_iff_ne.mpr (hfresh n hn)]
          rfl
        rw [hbn, beq_eq_false_iff_ne.mpr (hfresh n hn)]
        exact fun h => Bool.noConfusion h
      refine ⟨{ id := nid, content := c, tags := tags, priority := pr
                created_at := t1, access_count := 1, embedding := emb }, ?_, rfl⟩
      unfold findNode
      show ((db.nodes ++
        [({ id := nid, content := c, tags := tags, priority := pr
            created_at := t1, access_count := 0, embedding := emb } : Node)]).map
          (bumpAccess nid)).find? (fun n => n.id == nid) = _
      rw [List.map_append, List.find?_append, hnone2]
      simp [bumpAccess]

def dbC4 : DB := { nodes := [plainNode "a"], edges := [], logs := [] }

theorem C4_access_counting_witness :
    (findNode dbC4 "a" = some (plainNode "a")) ∧
    (∃ db2 res, navigateNode dbC4 "a" 7 = Except.ok (db2, res) ∧
      db2.logs = dbC4.logs ++
        [{ node_id := "a", accessed_at := 7, access_type := "navigate" }] ∧
      db2.edges = dbC4.edges ∧
      res.node.access_count = (plainNode "a").access_count + 1 ∧
      (∀ n ∈ dbC4.nodes, n.id ≠ "a" → n ∈ db2.nodes) ∧
      (∀ n ∈ dbC4.nodes, n.id = "a" →
        { n with access_count := n.access_count + 1 } ∈ db2.nodes)) ∧
    (searchNodes headSim dbC4 [1] none 5 8 =
      ((searchNodes headSim dbC4 [1] none 5 8).1,
       (searchNodes headSim dbC4 [1] none 5 8).2)) ∧
    ((searchNodes headSim dbC4 [1] none 5 8).1.nodes = dbC4.nodes ∧
     (searchNodes headSim dbC4 [1] none 5 8).1.edges = dbC4.edges ∧
     (searchNodes headSim dbC4 [1] none 5 8).1.logs = dbC4.logs ++
       (searchNodes headSim dbC4 [1] none 5 8).2.map (fun r =>
         { node_id := r.node_id, accessed_at := 8, access_type := "search" })) ∧
    (∀ n ∈ dbC4.nodes, n.id ≠ "b") ∧
    (∀ e ∈ dbC4.edges, e.source_id ≠ "b" ∧ e.target_id ≠ "b") ∧
    (∃ db1 r1 db2 r2,
      insertNode headSim dbC4 "b" "y" [] "normal" [1] 1 = Except.ok (db1, r1) ∧
      navigateNode db1 "b" 2 = Except.ok (db2, r2) ∧
      r2.node.access_count = 1 ∧
      r2.outgoing_connections = [] ∧ r2.incoming_connections = [] ∧
      (∃ nn, findNode db2 "b" = some nn ∧ nn.access_count = 1)) :=
  ⟨by decide,
   C4_access_counting.1 dbC4 "a" 7 (plainNode "a") (by decide),
   rfl,
   C4_access_counting.2.1 headSim dbC4 [1] none 5 8 _ _ rfl,
   by decide,
   by decide,
   C4_access_counting.2.2 headSim dbC4 "b" "y" [] "normal" [1] 1 2 (by decide) (by decide)⟩

/-! Claim C5. -/

theorem findSimilarNodes_eq (sim : Emb → Emb → ℚ) (qe : Emb) (ex : String)
    (topK : Nat) (th : ℚ) (dbX : DB) (L : List Node)
    (hrows : dbX.nodes.filter (fun n => n.id != ex) = L) :
    findSimilarNodes sim dbX qe ex topK th =
      (sortBySimDesc (fun x => x.similarity) (L.filterMap (fun n =>
        if th ≤ sim qe n.embedding then
          some { node_id := n.id, content := truncateContent n.content
                 tags := n.tags, similarity := round3 (sim qe n.embedding) }
        else none))).take topK := by
  unfold findSimilarNodes
  rw [hrows]

/-- A node whose similarity under headSim is dictated by the single stored
coordinate. -/
def simNode (i : String) (q : ℚ) : Node :=
  { id := i, content := "c" ++ i, tags := [], priority := "normal"
    created_at := 0, access_count := 0, embedding := [q] }

/-- The suggestion ids of an insert result (empty on error). -/
def suggIds (r : Except DBError (DB × InsertResult)) : List String :=
  match r with
  | Except.ok (_, res) => res.suggested_connections.map (fun s => s.node_id)
  | Except.error _ => []

def dbC5 : DB :=
  { nodes := [simNode "n1" (mkRat 9 10), simNode "n2" (mkRat 9 10),
              simNode "n3" (mkRat 9 10), simNode "n4" (mkRat 9 10),
              simNode "n5" (mkRat 9 10), simNode "x6" (mkRat 1 2)]
    edges := [], logs := [] }

/-- Claim C5 counterexample: in a store with six existing nodes whose
similarities to the inserted embedding are 0.9 (five of them) and exactly
0.5 (node x6), the suggestion list is truncated to the five 0.9 nodes:
x6 has similarity 0.5 ≥ 0.5 yet never appears — refuting both that the
list contains exactly the nodes with similarity ≥ 0.5 and that a node
with similarity 0.5 always appears. -/
theorem C5_counterexample :
    mkRat 1 2 ≤ headSim [1] [mkRat 1 2] ∧
    (∃ n ∈ dbC5.nodes, n.id = "x6" ∧ headSim [1] n.embedding = mkRat 1 2) ∧
    suggIds (insertNode headSim dbC5 "q" "c" [] "normal" [1] 9) =
      ["n1", "n2", "n3", "n4", "n5"] := by decide

/-- Claim C5 (amended): the suggestion list computed by insert_node on a
fresh id compares the new embedding against every other existing node and
consists of the top five of those with raw similarity ≥ 0.5: it never
contains a node of similarity below 0.5 (so a 0.49 node never appears),
is sorted descending by the stored similarity, has at most 5 entries, and
contains every qualifying node whenever at most five qualify (so a 0.5
node appears unless truncated away by five better ones); the suggestion
step writes no edge and no access-log row. -/
theorem C5_suggestions (sim : Emb → Emb → ℚ) (db : DB) (nid c : String)
    (tags : List String) (pr : String) (emb : Emb) (now : Nat)
    (hfresh : ∀ n ∈ db.nodes, n.id ≠ nid) :
    ∃ db1 res, insertNode sim db nid c tags pr emb now = Except.ok (db1, res) ∧
      db1.edges = db.edges ∧ db1.logs = db.logs ∧
      res.suggested_connections.length ≤ 5 ∧
      res.suggested_connections.Pairwise (fun x y => y.similarity ≤ x.similarity) ∧
      (∀ s ∈ res.suggested_connections, ∃ n ∈ db.nodes,
        s.node_id = n.id ∧ n.id ≠ nid ∧ mkRat 1 2 ≤ sim emb n.embedding) ∧
      ((db.nodes.filter (fun n => decide (mkRat 1 2 ≤ sim emb n.embedding))).length ≤ 5 →
        ∀ n ∈ db.nodes, mkRat 1 2 ≤ sim emb n.embedding →
          ∃ s ∈ res.suggested_connections, s.node_id = n.id) := by
  have hins := insertNode_ok_of_fresh sim db nid c tags pr emb now hfresh
  have hrowsX : ({ db with nodes := db.nodes ++
      [{ id := nid, content := c, tags := tags, priority := pr
         created_at := now, access_count := 0, embedding := emb }] } : DB).nodes.filter
      (fun n => n.id != nid) = db.nodes := by
    show (db.nodes ++
      [({ id := nid, content := c, tags := tags, priority := pr
          created_at := now, access_count := 0, embedding := emb } : Node)]).filter
        (fun n => n.id != nid) = db.nodes
    rw [List.filter_append]
    have h1 : db.nodes.filter (fun n => n.id != nid) = db.nodes :=
      List.filter_eq_self.mpr (fun n hn => bne_iff_ne.mpr (hfresh n hn))
    have h2 : ([({ id := nid, content := c, tags := tags, priority := pr
                   created_at := now, access_count := 0, embedding := emb } : Node)]).filter
        (fun n => n.id != nid) = [] := by
      simp
    rw [h1, h2, List.append_nil]
  rw [findSimilarNodes_eq sim emb nid 5 (mkRat 1 2) _ db.nodes hrowsX] at hins
  refine ⟨_, _, hins, rfl, rfl, ?_, ?_, ?_, ?_⟩
  · exact List.length_take_le 5 _
  · exact List.Pairwise.sublist (List.take_sublist 5 _) (sortBySimDesc_sorted _ _)
  · intro s hs5
    have hmem : s ∈ sortBySimDesc (fun x => x.similarity) (db.nodes.filterMap (fun n =>
        if mkRat 1 2 ≤ sim emb n.embedding then
          some ({ node_id := n.id, content := truncateContent n.content
                  tags := n.tags, similarity := round3 (sim emb n.embedding) } : Suggestion)
        else none)) := List.Sublist.mem hs5 (List.take_sublist 5 _)
    have hmem2 := ((sortBySimDesc_perm _ _).mem_iff).mp hmem
    obtain ⟨n, hn, hfn⟩ := List.mem_filterMap.mp hmem2
    by_cases hth : mkRat 1 2 ≤ sim emb n.embedding
    · rw [if_pos hth] at hfn
      obtain rfl := Option.some.inj hfn
      exact ⟨n, hn, rfl, hfresh n hn, hth⟩
    · rw [if_neg hth] at hfn
      cases hfn
  · intro hcap n hn hth
    have hlen : (db.nodes.filterMap (fun n =>
        if mkRat 1 2 ≤ sim emb n.embedding then
          some ({ node_id := n.id, content := truncateContent n.content
                  tags := n.tags, similarity := round3 (sim emb n.embedding) } : Suggestion)
        else none)).length =
        (db.nodes.filter (fun n => decide (mkRat 1 2 ≤ sim emb n.embedding))).length :=
      length_filterMap_ite (fun n => mkRat 1 2 ≤ sim emb n.embedding) _ db.nodes
    have hsortlen : (sortBySimDesc (fun x => x.similarity) (db.nodes.filterMap (fun n =>
        if mkRat 1 2 ≤ sim emb n.embedding then
          some ({ node_id := n.id, content := truncateContent n.content
                  tags := n.tags, similarity := round3 (sim emb n.embedding) } : Suggestion)
        else none))).length ≤ 5 := by
      rw [(sortBySimDesc_perm _ _).length_eq, hlen]
      exact hcap
    rw [List.take_of_length_le hsortlen]
    refine ⟨({ node_id := n.id, content := truncateContent n.content
               tags := n.tags, similarity := round3 (sim emb n.embedding) } : Suggestion),
            ?_, rfl⟩
    refine ((sortBySimDesc_perm _ _).mem_iff).mpr ?_
    exact List.mem_filterMap.mpr ⟨n, hn, by rw [if_pos hth]⟩

def dbC5w : DB :=
  { nodes := [simNode "p1" (mkRat 9 10), simNode "p2" (mkRat 2 5)]
    edges := [], logs := [] }

theorem C5_suggestions_witness :
    (∀ n ∈ dbC5w.nodes, n.id ≠ "q") ∧
    (∃ db1 res, insertNode headSim dbC5w "q" "c" [] "normal" [1] 9 =
        Except.ok (db1, res) ∧
      db1.edges = dbC5w.edges ∧ db1.logs = dbC5w.logs ∧
      res.suggested_connections.length ≤ 5 ∧
      res.suggested_connections.Pairwise (fun x y => y.similarity ≤ x.similarity) ∧
      (∀ s ∈ res.suggested_connections, ∃ n ∈ dbC5w.nodes,
        s.node_id = n.id ∧ n.id ≠ "q" ∧ mkRat 1 2 ≤ headSim [1] n.embedding) ∧
      ((dbC5w.nodes.filter (fun n => decide (mkRat 1 2 ≤ headSim [1] n.embedding))).length ≤ 5 →
        ∀ n ∈ dbC5w.nodes, mkRat 1 2 ≤ headSim [1] n.embedding →
          ∃ s ∈ res.suggested_connections, s.node_id = n.id)) :=
  ⟨by decide, C5_suggestions headSim dbC5w "q" "c" [] "normal" [1] 9 (by decide)⟩

/-! Claim C6. -/

/-- ASCII-order comparison of single characters, as a Bool. -/
def charLt (a b : Char) : Bool := decide (a.toNat < b.toNat)

/-- Lexicographic strict order on char lists. -/
def strLtChars : List Char → List Char → Bool
  | [], [] => false
  | [], _ :: _ => true
  | _ :: _, [] => false
  | a :: as, b :: bs => charLt a b || (a == b && strLtChars as bs)

/-- Lexicographic order on strings (reflexive). -/
def strLe (a b : String) : Bool := a == b || strLtChars a.toList b.toList

/-- Modelled from the spec: the result order claim C6 asserts for search —
descending similarity, with ties broken by ascending creation time and
then ascending id. -/
abbrev specSearchOrder (created : String → Nat) (x y : SearchResult) : Prop :=
  y.similarity < x.similarity ∨
    (x.similarity = y.similarity ∧
      (created x.node_id < created y.node_id ∨
        (created x.node_id = created y.node_id ∧ strLe x.node_id y.node_id = true)))

def dbC6 : DB :=
  { nodes := [simNode "b" 1, simNode "a" 1], edges := [], logs := [] }

/-- Claim C6 counterexample: two nodes with equal similarity to the query
and equal creation time, stored in the order b then a, are returned in the
order [b, a]; the claimed fixed secondary key (ascending creation time,
then id) requires [a, b], so the returned list is not sorted by the
claimed order — the code applies no secondary key and ties follow
incidental table order. -/
theorem C6_counterexample :
    (∀ n ∈ dbC6.nodes, n.created_at = 0) ∧
    ((searchNodes headSim dbC6 [1] none 5 4).2.map (fun r => r.node_id) = ["b", "a"]) ∧
    ((searchNodes headSim dbC6 [1] none 5 4).2.map (fun r => r.similarity) = [1, 1]) ∧
    ¬ (searchNodes headSim dbC6 [1] none 5 4).2.Pairwise
        (specSearchOrder (fun _ => 0)) := by decide

/-- Claim C6 (amended): search orders its results descending by the stored
similarity — every earlier result has similarity at least that of every
later one, so a 0.9 candidate is returned strictly before a 0.3 one — but
the code applies no secondary tie-break key: candidates of equal
similarity appear in incidental table order (the stable sort preserves the
candidate scan order), not in creation-time-then-id order. -/
theorem C6_search_sorted (sim : Emb → Emb → ℚ) (db : DB) (qe : Emb)
    (tags : Option (List String)) (topK now : Nat) :
    (searchNodes sim db qe tags topK now).2.Pairwise
      (fun x y => y.similarity ≤ x.similarity) :=
  List.Pairwise.sublist (List.take_sublist topK _) (sortBySimDesc_sorted _ _)

end Mindmap
